import Mathlib

/-
  Verification of the OAuth2 authorization-code subsystem of the
  social-suit monorepo (frontend/lib/oauth.ts), via a shallow embedding.

  The TypeScript `Platform` enum is a string enum whose runtime values are
  the lowercase platform names ("twitter", "facebook", "instagram",
  "linkedin", "tiktok", "youtube"); we therefore model platform
  identifiers as `String`, which also lets us represent unsupported
  identifiers such as "not-a-real-platform" exactly as the source does.

  `sessionStorage` holds string values under three fixed keys
  (oauth_state / oauth_platform / oauth_redirect); we model it as a record
  of three `Option String` fields (`none` = key absent, `getItem` returns
  null).  All embedded operations assume the browser context (the
  `typeof window === 'undefined'` early-return guards in the source are
  the server-side-rendering escape hatch and are outside the modelled
  browser behaviour).

  JavaScript truthiness of an optional string argument (`if (redirectTo)`)
  is: present and non-empty.  `a === b` for `a : string | null`,
  `b : string` holds iff `a` is the same non-null string as `b`.
-/

namespace SocialSuit

/-- Runtime values of the `Platform` string enum. -/
def Platform.TWITTER : String := "twitter"

def Platform.FACEBOOK : String := "facebook"

def Platform.INSTAGRAM : String := "instagram"

def Platform.LINKEDIN : String := "linkedin"

def Platform.TIKTOK : String := "tiktok"

def Platform.YOUTUBE : String := "youtube"

/-- Entry of `OAUTH_CONFIGS`: authorization endpoint plus default scopes. -/
structure PlatformOAuthConfig where
  authUrl : String
  scope : List String
deriving DecidableEq, Repr

/-- The `OAUTH_CONFIGS` registry from oauth.ts.  Indexing a TS object with
an unknown key yields `undefined`, modelled as `none`. -/
def OAUTH_CONFIGS (platform : String) : Option PlatformOAuthConfig :=
  if platform = Platform.TWITTER then
    some ⟨"https://twitter.com/i/oauth2/authorize",
          ["tweet.read", "tweet.write", "users.read", "offline.access"]⟩
  else if platform = Platform.FACEBOOK then
    some ⟨"https://www.facebook.com/v18.0/dialog/oauth",
          ["pages_manage_posts", "pages_read_engagement", "pages_show_list",
           "publish_to_groups"]⟩
  else if platform = Platform.INSTAGRAM then
    some ⟨"https://api.instagram.com/oauth/authorize",
          ["user_profile", "user_media", "instagram_basic",
           "instagram_content_publish"]⟩
  else if platform = Platform.LINKEDIN then
    some ⟨"https://www.linkedin.com/oauth/v2/authorization",
          ["r_liteprofile", "r_emailaddress", "w_member_social",
           "rw_organization_admin"]⟩
  else if platform = Platform.TIKTOK then
    some ⟨"https://www.tiktok.com/auth/authorize/",
          ["user.info.basic", "video.list", "video.upload"]⟩
  else if platform = Platform.YOUTUBE then
    some ⟨"https://accounts.google.com/o/oauth2/v2/auth",
          ["https://www.googleapis.com/auth/youtube.upload",
           "https://www.googleapis.com/auth/youtube.readonly"]⟩
  else none

/-- The three `sessionStorage` slots used by `OAuthStateManager`. -/
structure SessionStore where
  state : Option String
  platform : Option String
  redirect : Option String
deriving DecidableEq, Repr

/-- A freshly opened browser session: no keys set. -/
def SessionStore.empty : SessionStore := ⟨none, none, none⟩

/-- `OAuthStateManager.saveState`: unconditionally writes the state and
platform keys; the redirect key is written only when `redirectTo` is
truthy (present and non-empty), otherwise it is left untouched. -/
def saveState (store : SessionStore) (platform state : String)
    (redirectTo : Option String) : SessionStore :=
  { state := some state
    platform := some platform
    redirect :=
      match redirectTo with
      | some r => if r = "" then store.redirect else some r
      | none => store.redirect }

/-- `OAuthStateManager.clearState`: removes all three keys. -/
def clearState (_store : SessionStore) : SessionStore := ⟨none, none, none⟩

/-- Return shape of `OAuthStateManager.validateState`; the source object
literal `{ isValid, platform, redirectTo }` always carries all three
fields (the latter two possibly null). -/
structure ValidationResult where
  isValid : Bool
  platform : Option String
  redirectTo : Option String
deriving DecidableEq, Repr

/-- `OAuthStateManager.validateState`: reads all three keys, compares the
stored token with the received one by strict string equality, clears the
store on a match, and returns the (pre-clear) platform and redirect
together with the validity flag. -/
def validateState (store : SessionStore) (receivedState : String) :
    ValidationResult × SessionStore :=
  let savedState := store.state
  let platform := store.platform
  let redirectTo := store.redirect
  let isValid : Bool := savedState = some receivedState
  let store' := if isValid then clearState store else store
  (⟨isValid, platform, redirectTo⟩, store')

/-- Return shape of `OAuthFlowManager.handleCallback`. -/
structure CallbackOutcome where
  success : Bool
  platform : Option String
  redirectTo : Option String
  error : Option String
deriving DecidableEq, Repr

/-- `OAuthFlowManager.handleCallback`: validates the state first (which
may consume the session), then rejects an empty/absent code, and only
then reports success with the platform and redirect drawn from the
validated session. -/
def handleCallback (store : SessionStore) (code state : String) :
    CallbackOutcome × SessionStore :=
  let (validation, store') := validateState store state
  if !validation.isValid then
    (⟨false, none, none,
      some "Invalid OAuth state. This may be a security issue."⟩, store')
  else if code = "" then
    (⟨false, none, none,
      some "Authorization code not received from OAuth provider."⟩, store')
  else
    (⟨true, validation.platform, validation.redirectTo, none⟩, store')

/-- `OAuthStateManager.generateState`.  One call to
`Math.random().toString(36)` yields a string such as "0.k3j2h4g5f6d7s";
we model the random source by the two strings those calls return, so the
embedding is a function of the draw.  `substring(2, 15)` keeps at most 13
characters starting at index 2, hence `drop 2` then `take 13`. -/
def substring2to15 (s : String) : String :=
  String.mk ((s.toList.drop 2).take 13)

def generateState (draw1 draw2 : String) : String :=
  substring2to15 draw1 ++ substring2to15 draw2

/-- The `OAuthConfig` request record passed to `buildAuthUrl`; `state?`
is an optional field. -/
structure OAuthConfig where
  clientId : String
  redirectUri : String
  scope : List String
  state : Option String
deriving DecidableEq, Repr

/-- Ordered key-value list built by `OAuthUrlBuilder.buildAuthUrl` via
`URLSearchParams` plus the platform-specific `append` calls.  Throwing
(`OAuth configuration not found...`) is modelled as `Except.error`.  The
two local random generations — the fresh state used when `config.state`
is falsy, and the PKCE code challenge — are passed in explicitly
(`freshState`, `codeChallenge`) to keep the function a pure image of the
source plus its random draws. -/
def buildAuthParams (platform : String) (config : OAuthConfig)
    (freshState codeChallenge : String) :
    Except String (List (String × String)) :=
  match OAUTH_CONFIGS platform with
  | none =>
      .error ("OAuth configuration not found for platform: " ++ platform)
  | some _ =>
      let stateParam :=
        match config.state with
        | some s => if s = "" then freshState else s
        | none => freshState
      let base : List (String × String) :=
        [("client_id", config.clientId),
         ("redirect_uri", config.redirectUri),
         ("scope", String.intercalate " " config.scope),
         ("response_type", "code"),
         ("state", stateParam)]
      let extra : List (String × String) :=
        if platform = Platform.TWITTER then
          [("code_challenge_method", "S256"), ("code_challenge", codeChallenge)]
        else if platform = Platform.FACEBOOK then
          [("display", "popup")]
        else if platform = Platform.INSTAGRAM then
          [("display", "popup")]
        else if platform = Platform.LINKEDIN then
          []
        else if platform = Platform.TIKTOK then
          [("response_type", "code")]
        else if platform = Platform.YOUTUBE then
          [("access_type", "offline"), ("prompt", "consent")]
        else
          []
      .ok (base ++ extra)

/-- Characters `application/x-www-form-urlencoded` serialization leaves
literal: ASCII alphanumerics and `*`, `-`, `.`, `_`. -/
def formUrlSafe (c : Char) : Bool :=
  (('a' ≤ c && c ≤ 'z') || ('A' ≤ c && c ≤ 'Z') || ('0' ≤ c && c ≤ '9')
   || c = '*' || c = '-' || c = '.' || c = '_')

/-- Hex digit for percent-encoding. -/
def hexDigit (n : Nat) : Char :=
  if n < 10 then Char.ofNat (n + 48) else Char.ofNat (n + 55)

/-- Percent-encoding of one byte value. -/
def percentByte (n : Nat) : String :=
  String.mk ['%', hexDigit ((n / 16) % 16), hexDigit (n % 16)]

/-- `URLSearchParams` component serialization: safe characters kept,
space becomes `+`, everything else percent-encoded byte-wise (UTF-8);
for the ASCII-only strings in this development one byte per char. -/
def urlEncodeChar (c : Char) : String :=
  if formUrlSafe c then String.mk [c]
  else if c = ' ' then "+"
  else percentByte c.toNat

/-- Serialization of one string component of a query parameter. -/
def urlEncode (s : String) : String :=
  String.join (s.toList.map urlEncodeChar)

/-- `URLSearchParams.toString()`: `k=v` pairs joined by `&`. -/
def paramsToString (params : List (String × String)) : String :=
  String.intercalate "&"
    (params.map (fun kv => urlEncode kv.1 ++ "=" ++ urlEncode kv.2))

/-- `OAuthUrlBuilder.buildAuthUrl`: the registry endpoint, a `?`, and the
serialized query parameters. -/
def buildAuthUrl (platform : String) (config : OAuthConfig)
    (freshState codeChallenge : String) : Except String String :=
  match OAUTH_CONFIGS platform with
  | none =>
      .error ("OAuth configuration not found for platform: " ++ platform)
  | some platformConfig =>
      match buildAuthParams platform config freshState codeChallenge with
      | .error e => .error e
      | .ok params => .ok (platformConfig.authUrl ++ "?" ++ paramsToString params)

/-- `OAuthFlowManager.getClientId`: environment lookup, modelled as a
caller-supplied map; a missing entry throws. -/
def getClientId (clientIds : String → Option String) (platform : String) :
    Except String String :=
  match clientIds platform with
  | none => .error ("Client ID not configured for platform: " ++ platform)
  | some cid => .ok cid

/-- `OAuthFlowManager.initiateFlow`.  The source's order of effects is
kept exactly: generate the state token, save the session, only then look
up the registry entry (throwing on an unknown platform), resolve the
client id (throwing when unconfigured), build the URL, and finally
navigate (`window.location.href = authUrl`, modelled as the `.ok` URL).
The session store is threaded explicitly and returned alongside the
outcome, so a throw after `saveState` still reflects the mutated store.
Random draws: `draw1`/`draw2` feed `generateState`; `freshDraw1`/
`freshDraw2` would feed the state regeneration inside `buildAuthUrl` if
the passed state were falsy; `challengeDraw` feeds the PKCE challenge. -/
def initiateFlow (clientIds : String → Option String) (origin : String)
    (store : SessionStore) (platform : String) (redirectTo : Option String)
    (draw1 draw2 freshDraw1 freshDraw2 challengeDraw : String) :
    SessionStore × Except String String :=
  let state := generateState draw1 draw2
  let redirectUri := origin ++ "/auth/callback"
  let store' := saveState store platform state redirectTo
  match OAUTH_CONFIGS platform with
  | none =>
      (store',
       .error ("OAuth configuration not found for platform: " ++ platform))
  | some platformConfig =>
      match getClientId clientIds platform with
      | .error e => (store', .error e)
      | .ok clientId =>
          (store',
           buildAuthUrl platform
             ⟨clientId, redirectUri, platformConfig.scope, some state⟩
             (generateState freshDraw1 freshDraw2) challengeDraw)

/-- The `OAuthError` value type. -/
structure OAuthError where
  error : String
  error_description : Option String
  error_uri : Option String
  state : Option String
deriving DecidableEq, Repr

/-- `URLSearchParams.get`: first value under the key, or null. -/
def searchParamsGet (params : List (String × String)) (key : String) :
    Option String :=
  match params.find? (fun kv => kv.1 = key) with
  | some kv => some kv.2
  | none => none

/-- JavaScript `x || undefined` on a nullable string: empty and absent
collapse to absent. -/
def orUndefined (x : Option String) : Option String :=
  match x with
  | some s => if s = "" then none else some s
  | none => none

/-- `OAuthErrorHandler.parseError`: null when no (truthy) `error`
parameter is present, otherwise the extracted error record. -/
def parseError (searchParams : List (String × String)) : Option OAuthError :=
  match searchParamsGet searchParams "error" with
  | none => none
  | some e =>
      if e = "" then none
      else
        some ⟨e,
              orUndefined (searchParamsGet searchParams "error_description"),
              orUndefined (searchParamsGet searchParams "error_uri"),
              orUndefined (searchParamsGet searchParams "state")⟩

/-- The fixed user-facing sentences of `getErrorMessage`'s
`errorMessages` record. -/
def errorMessages (code : String) : Option String :=
  if code = "access_denied" then
    some "You denied access to your account. Please try again if you want to connect this platform."
  else if code = "invalid_request" then
    some "There was an error with the authorization request. Please try again."
  else if code = "unauthorized_client" then
    some "The application is not authorized to request access tokens."
  else if code = "unsupported_response_type" then
    some "The authorization server does not support this response type."
  else if code = "invalid_scope" then
    some "The requested scope is invalid or unknown."
  else if code = "server_error" then
    some "The authorization server encountered an error. Please try again later."
  else if code = "temporarily_unavailable" then
    some "The authorization server is temporarily unavailable. Please try again later."
  else none

/-- `OAuthErrorHandler.getErrorMessage`: fixed sentence for a known code,
else the (truthy) provider description, else the generic sentence. -/
def getErrorMessage (e : OAuthError) : String :=
  match errorMessages e.error with
  | some msg => msg
  | none =>
      match e.error_description with
      | some d => if d = "" then "An unknown error occurred during authorization." else d
      | none => "An unknown error occurred during authorization."

/-
  Theorems
-/

/-- C3, counterexample: with an empty-string redirect target the
round-trip does not return that redirect — `saveState` skips the
redirect key for a falsy argument, so `validateState` reports `none`
rather than `some ""`. -/
theorem state_roundtrip_cex :
    (validateState
        (saveState SessionStore.empty Platform.TWITTER "token123" (some ""))
        "token123").1
      ≠ ValidationResult.mk true (some Platform.TWITTER) (some "") := by
  decide

/-- C3 (amended): for every prior store, supported or not platform P,
state token s, and NON-EMPTY redirect target R, `saveState` then
`validateState` with the same token yields
`{isValid := true, platform := P, redirectTo := R}`. -/
theorem state_roundtrip (store : SessionStore) (P s R : String)
    (hR : R ≠ "") :
    (validateState (saveState store P s (some R)) s).1 =
      ValidationResult.mk true (some P) (some R) := by
  simp [validateState, saveState, hR]

/-- Witness for `state_roundtrip` at a concrete input. -/
theorem state_roundtrip_witness :
    (validateState
        (saveState SessionStore.empty Platform.TWITTER "tok" (some "/dashboard"))
        "tok").1
      = ValidationResult.mk true (some Platform.TWITTER) (some "/dashboard") :=
  state_roundtrip SessionStore.empty Platform.TWITTER "tok" "/dashboard"
    (by decide)

/-- C4: the session is single-use — a validation that succeeded clears
the store, so a second `validateState` with the same token fails. -/
theorem state_single_use (store : SessionStore) (s : String)
    (h : (validateState store s).1.isValid = true) :
    (validateState (validateState store s).2 s).1.isValid = false := by
  simp only [validateState, clearState, decide_eq_true_eq] at h ⊢
  simp [h]

/-- Witness for `state_single_use` at a concrete input. -/
theorem state_single_use_witness :
    (validateState
        (validateState ⟨some "tok", some "twitter", some "/d"⟩ "tok").2
        "tok").1.isValid = false :=
  state_single_use ⟨some "tok", some "twitter", some "/d"⟩ "tok" (by decide)

/-- C5, counterexample: a second `saveState` with the redirect omitted
does NOT overwrite the whole slot — the previous session's redirect
survives, so the resulting session is not exactly the new triple. -/
theorem overwrite_cex :
    (saveState
        (saveState SessionStore.empty Platform.TWITTER "s1" (some "/old"))
        Platform.FACEBOOK "s2" none).redirect = some "/old"
    ∧ saveState
        (saveState SessionStore.empty Platform.TWITTER "s1" (some "/old"))
        Platform.FACEBOOK "s2" none
      ≠ SessionStore.mk (some "s2") (some Platform.FACEBOOK) none := by
  decide

/-- C5 (amended): when a non-empty redirect is supplied, `saveState`
replaces the whole slot with exactly the new triple, independently of
the prior store; when the redirect is omitted, and likewise when it is
the empty string (both falsy), the state and platform are overwritten
but the prior redirect survives unchanged. -/
theorem saveState_overwrite (store : SessionStore) (P2 s2 R2 : String)
    (hR : R2 ≠ "") :
    saveState store P2 s2 (some R2)
        = SessionStore.mk (some s2) (some P2) (some R2)
    ∧ (saveState store P2 s2 none).state = some s2
    ∧ (saveState store P2 s2 none).platform = some P2
    ∧ (saveState store P2 s2 none).redirect = store.redirect
    ∧ (saveState store P2 s2 (some "")).state = some s2
    ∧ (saveState store P2 s2 (some "")).platform = some P2
    ∧ (saveState store P2 s2 (some "")).redirect = store.redirect := by
  simp [saveState, hR]

/-- Witness for `saveState_overwrite` at a concrete input. -/
theorem saveState_overwrite_witness :
    saveState SessionStore.empty Platform.LINKEDIN "s9" (some "/home")
        = SessionStore.mk (some "s9") (some Platform.LINKEDIN) (some "/home")
    ∧ (saveState SessionStore.empty Platform.LINKEDIN "s9" none).state = some "s9"
    ∧ (saveState SessionStore.empty Platform.LINKEDIN "s9" none).platform
        = some Platform.LINKEDIN
    ∧ (saveState SessionStore.empty Platform.LINKEDIN "s9" none).redirect
        = SessionStore.empty.redirect
    ∧ (saveState SessionStore.empty Platform.LINKEDIN "s9" (some "")).state
        = some "s9"
    ∧ (saveState SessionStore.empty Platform.LINKEDIN "s9" (some "")).platform
        = some Platform.LINKEDIN
    ∧ (saveState SessionStore.empty Platform.LINKEDIN "s9" (some "")).redirect
        = SessionStore.empty.redirect :=
  saveState_overwrite SessionStore.empty Platform.LINKEDIN "s9" "/home"
    (by decide)

/-- C6: when the received state validates, an empty authorization code
produces the fixed missing-code failure; when the received state fails
validation, `handleCallback` returns the fixed invalid-state failure
whatever the code is (the code is never examined on that path — the
outcome is the same for every code value). -/
theorem handleCallback_errors (store store2 : SessionStore) (s s2 c : String)
    (hv : (validateState store s).1.isValid = true)
    (hi : (validateState store2 s2).1.isValid = false) :
    (handleCallback store "" s).1
      = CallbackOutcome.mk false none none
          (some "Authorization code not received from OAuth provider.")
    ∧ (handleCallback store2 c s2).1
      = CallbackOutcome.mk false none none
          (some "Invalid OAuth state. This may be a security issue.") := by
  constructor
  · simp [handleCallback, hv]
  · simp [handleCallback, hi]

/-- Witness for `handleCallback_errors` at concrete inputs. -/
theorem handleCallback_errors_witness :
    (handleCallback ⟨some "tok", some "twitter", some "/d"⟩ "" "tok").1
      = CallbackOutcome.mk false none none
          (some "Authorization code not received from OAuth provider.")
    ∧ (handleCallback SessionStore.empty "goodcode" "forged").1
      = CallbackOutcome.mk false none none
          (some "Invalid OAuth state. This may be a security issue.") :=
  handleCallback_errors ⟨some "tok", some "twitter", some "/d"⟩
    SessionStore.empty "tok" "forged" "goodcode" (by decide) (by decide)

/-- C10: a callback whose state matches but whose code is empty fails
with the missing-code outcome, yet the session has already been consumed
by the validation step — the store comes back empty, so a retry with the
same state (and any code) hits the invalid-state failure. -/
theorem missing_code_consumes_session (store : SessionStore) (s c : String)
    (h : store.state = some s) :
    (handleCallback store "" s).1
      = CallbackOutcome.mk false none none
          (some "Authorization code not received from OAuth provider.")
    ∧ (handleCallback store "" s).2 = SessionStore.empty
    ∧ (handleCallback (handleCallback store "" s).2 c s).1
      = CallbackOutcome.mk false none none
          (some "Invalid OAuth state. This may be a security issue.") := by
  refine ⟨?_, ?_, ?_⟩ <;>
    simp [handleCallback, validateState, clearState, SessionStore.empty, h]

/-- Witness for `missing_code_consumes_session` at a concrete input. -/
theorem missing_code_consumes_session_witness :
    (handleCallback ⟨some "st1", some "youtube", some "/d"⟩ "" "st1").1
      = CallbackOutcome.mk false none none
          (some "Authorization code not received from OAuth provider.")
    ∧ (handleCallback ⟨some "st1", some "youtube", some "/d"⟩ "" "st1").2
      = SessionStore.empty
    ∧ (handleCallback
        (handleCallback ⟨some "st1", some "youtube", some "/d"⟩ "" "st1").2
        "realcode" "st1").1
      = CallbackOutcome.mk false none none
          (some "Invalid OAuth state. This may be a security issue.") :=
  missing_code_consumes_session ⟨some "st1", some "youtube", some "/d"⟩
    "st1" "realcode" (by decide)

/-- C2, counterexample: initiating with an unsupported platform does
raise the unknown-platform error and navigates nowhere, but the session
store is NOT left empty — the state token, platform and redirect have
already been persisted by the time the error is thrown. -/
theorem initiate_unknown_cex :
    (initiateFlow (fun _ => none) "https://app.example" SessionStore.empty
        "not-a-real-platform" (some "/dashboard")
        "0.abc123def456ghij" "0.klm789nop012qrst" "0.x" "0.y" "0.z").2
      = Except.error
          "OAuth configuration not found for platform: not-a-real-platform"
    ∧ (initiateFlow (fun _ => none) "https://app.example" SessionStore.empty
        "not-a-real-platform" (some "/dashboard")
        "0.abc123def456ghij" "0.klm789nop012qrst" "0.x" "0.y" "0.z").1.state
      ≠ none
    ∧ (initiateFlow (fun _ => none) "https://app.example" SessionStore.empty
        "not-a-real-platform" (some "/dashboard")
        "0.abc123def456ghij" "0.klm789nop012qrst" "0.x" "0.y" "0.z").1.platform
      = some "not-a-real-platform"
    ∧ (initiateFlow (fun _ => none) "https://app.example" SessionStore.empty
        "not-a-real-platform" (some "/dashboard")
        "0.abc123def456ghij" "0.klm789nop012qrst" "0.x" "0.y" "0.z").1.redirect
      = some "/dashboard" := by
  refine ⟨rfl, ?_, rfl, rfl⟩
  decide

/-- C2 (amended): for every platform outside the registry, `initiateFlow`
fails with the unknown-platform error and produces no navigation URL,
but only after the freshly generated state token, the platform and the
redirect have been persisted to the session store. -/
theorem initiate_unknown (clientIds : String → Option String)
    (origin : String) (store : SessionStore) (p : String)
    (redirectTo : Option String) (d1 d2 f1 f2 ch : String)
    (h : OAUTH_CONFIGS p = none) :
    initiateFlow clientIds origin store p redirectTo d1 d2 f1 f2 ch
      = (saveState store p (generateState d1 d2) redirectTo,
         Except.error ("OAuth configuration not found for platform: " ++ p)) := by
  simp [initiateFlow, h]

/-- Witness for `initiate_unknown` at a concrete input. -/
theorem initiate_unknown_witness :
    initiateFlow (fun _ => none) "https://app.example" SessionStore.empty
        "badplatform" none "0.a1" "0.b2" "0.c3" "0.d4" "0.e5"
      = (saveState SessionStore.empty "badplatform" (generateState "0.a1" "0.b2")
           none,
         Except.error "OAuth configuration not found for platform: badplatform") :=
  initiate_unknown (fun _ => none) "https://app.example" SessionStore.empty
    "badplatform" none "0.a1" "0.b2" "0.c3" "0.d4" "0.e5" (by decide)

/-- One `Math.random().toString(36).substring(2, 15)` fragment keeps at
most 13 characters. -/
theorem substring2to15_length_le (s : String) :
    (substring2to15 s).length ≤ 13 := by
  have h : (substring2to15 s).length = ((s.toList.drop 2).take 13).length := rfl
  rw [h, List.length_take]
  exact min_le_left _ _

/-- The concatenation of the two fragments is at most 26 characters,
whatever the random draws return. -/
theorem generateState_length_le (d1 d2 : String) :
    (generateState d1 d2).length ≤ 26 := by
  have h1 := substring2to15_length_le d1
  have h2 := substring2to15_length_le d2
  simp only [generateState, String.length_append]
  omega

set_option maxRecDepth 8000 in
/-- C8, counterexample: a concrete initiation run produces an
authorization URL whose `state` parameter is the 26-character token
"abc123def456gklm789nop012q" — shorter than 36, so the claimed 36+
character minimum fails on this invocation. -/
theorem state_token_length_cex :
    (initiateFlow (fun _ => some "cid") "https://app.example"
        SessionStore.empty Platform.LINKEDIN none
        "0.abc123def456ghij" "0.klm789nop012qrst" "0.x1" "0.y2" "0.z3").2
      = Except.ok
          ("https://www.linkedin.com/oauth/v2/authorization?client_id=cid&redirect_uri=https%3A%2F%2Fapp.example%2Fauth%2Fcallback&scope=r_liteprofile+r_emailaddress+w_member_social+rw_organization_admin&response_type=code&state=abc123def456gklm789nop012q")
    ∧ generateState "0.abc123def456ghij" "0.klm789nop012qrst"
        = "abc123def456gklm789nop012q"
    ∧ ("abc123def456gklm789nop012q" : String).length = 26
    ∧ ¬ (36 ≤ ("abc123def456gklm789nop012q" : String).length) := by
  refine ⟨rfl, rfl, ?_, ?_⟩ <;> decide

/-- C8 (amended): the generated CSRF token placed in the URL's `state`
parameter is at most 26 characters long (two fragments of at most 13),
for every outcome of the random source — never 36 or more.  Stated over
`buildAuthParams` as invoked by `initiateFlow`: the request state is the
freshly generated token and the builder's fallback regeneration is
another `generateState` outcome; any value carried by a `state`
parameter of the produced query is bounded by 26. -/
theorem state_token_length (p : String) (config : OAuthConfig)
    (d1 d2 f1 f2 ch : String) (l : List (String × String)) (v : String)
    (hstate : config.state = some (generateState d1 d2))
    (hbuild : buildAuthParams p config (generateState f1 f2) ch = Except.ok l)
    (hmem : ("state", v) ∈ l) :
    v.length ≤ 26 := by
  unfold buildAuthParams at hbuild
  split at hbuild
  · exact absurd hbuild (by simp)
  · simp only [hstate, Except.ok.injEq] at hbuild
    subst hbuild
    split_ifs at hmem <;> simp at hmem <;>
      first
        | exact hmem ▸ generateState_length_le d1 d2
        | exact hmem ▸ generateState_length_le f1 f2

/-- Witness for `state_token_length` at a concrete input. -/
theorem state_token_length_witness :
    ("abc123def456gklm789nop012q" : String).length ≤ 26 :=
  state_token_length Platform.TWITTER
    ⟨"cid", "https://app.example/auth/callback", ["tweet.read"],
     some (generateState "0.abc123def456ghij" "0.klm789nop012qrst")⟩
    "0.abc123def456ghij" "0.klm789nop012qrst" "0.x1" "0.y2" "chal"
    [("client_id", "cid"),
     ("redirect_uri", "https://app.example/auth/callback"),
     ("scope", "tweet.read"),
     ("response_type", "code"),
     ("state", "abc123def456gklm789nop012q"),
     ("code_challenge_method", "S256"),
     ("code_challenge", "chal")]
    "abc123def456gklm789nop012q" rfl rfl (by simp)

/-- C7: for every registered platform and every request whose scopes are
the registry scopes, the produced query carries `client_id`,
`redirect_uri`, the space-joined scope list in registry order,
`response_type=code` and a `state` parameter; the twitter platform
additionally gets both PKCE parameters (`code_challenge_method=S256` and
a `code_challenge`), and no other platform gets either. -/
theorem buildAuthUrl_params (p : String) (cfg : PlatformOAuthConfig)
    (config : OAuthConfig) (freshState codeChallenge : String)
    (l : List (String × String))
    (hp : OAUTH_CONFIGS p = some cfg)
    (hscope : config.scope = cfg.scope)
    (hbuild : buildAuthParams p config freshState codeChallenge = Except.ok l) :
    ("client_id", config.clientId) ∈ l
    ∧ ("redirect_uri", config.redirectUri) ∈ l
    ∧ ("scope", String.intercalate " " cfg.scope) ∈ l
    ∧ ("response_type", "code") ∈ l
    ∧ "state" ∈ l.map Prod.fst
    ∧ (p = Platform.TWITTER →
        ("code_challenge_method", "S256") ∈ l
        ∧ "code_challenge" ∈ l.map Prod.fst)
    ∧ (p ≠ Platform.TWITTER →
        "code_challenge" ∉ l.map Prod.fst
        ∧ "code_challenge_method" ∉ l.map Prod.fst) := by
  rw [← hscope]
  simp only [buildAuthParams, hp, Except.ok.injEq] at hbuild
  subst hbuild
  split_ifs with h1 h2 h3 h4 h5 h6 <;>
    refine ⟨by simp, by simp, by simp, by simp, by simp, fun ht => ?_,
      fun hn => ?_⟩
  · exact ⟨by simp, by simp⟩
  · exact absurd h1 hn
  · exact absurd ht h1
  · exact ⟨by simp, by simp⟩
  · exact absurd ht h1
  · exact ⟨by simp, by simp⟩
  · exact absurd ht h1
  · exact ⟨by simp, by simp⟩
  · exact absurd ht h1
  · exact ⟨by simp, by simp⟩
  · exact absurd ht h1
  · exact ⟨by simp, by simp⟩
  · exact absurd ht h1
  · exact ⟨by simp, by simp⟩

/-- Witness for `buildAuthUrl_params` at a concrete input. -/
theorem buildAuthUrl_params_witness :
    ("client_id", "cid")
        ∈ [("client_id", "cid"),
           ("redirect_uri", "https://app.example/auth/callback"),
           ("scope", "tweet.read tweet.write users.read offline.access"),
           ("response_type", "code"),
           ("state", "mystate"),
           ("code_challenge_method", "S256"),
           ("code_challenge", "chal")]
    ∧ ("redirect_uri", "https://app.example/auth/callback")
        ∈ [("client_id", "cid"),
           ("redirect_uri", "https://app.example/auth/callback"),
           ("scope", "tweet.read tweet.write users.read offline.access"),
           ("response_type", "code"),
           ("state", "mystate"),
           ("code_challenge_method", "S256"),
           ("code_challenge", "chal")]
    ∧ ("scope", String.intercalate " "
          ["tweet.read", "tweet.write", "users.read", "offline.access"])
        ∈ [("client_id", "cid"),
           ("redirect_uri", "https://app.example/auth/callback"),
           ("scope", "tweet.read tweet.write users.read offline.access"),
           ("response_type", "code"),
           ("state", "mystate"),
           ("code_challenge_method", "S256"),
           ("code_challenge", "chal")]
    ∧ ("response_type", "code")
        ∈ [("client_id", "cid"),
           ("redirect_uri", "https://app.example/auth/callback"),
           ("scope", "tweet.read tweet.write users.read offline.access"),
           ("response_type", "code"),
           ("state", "mystate"),
           ("code_challenge_method", "S256"),
           ("code_challenge", "chal")]
    ∧ "state"
        ∈ ([("client_id", "cid"),
            ("redirect_uri", "https://app.example/auth/callback"),
            ("scope", "tweet.read tweet.write users.read offline.access"),
            ("response_type", "code"),
            ("state", "mystate"),
            ("code_challenge_method", "S256"),
            ("code_challenge", "chal")].map Prod.fst)
    ∧ (Platform.TWITTER = Platform.TWITTER →
        ("code_challenge_method", "S256")
          ∈ [("client_id", "cid"),
             ("redirect_uri", "https://app.example/auth/callback"),
             ("scope", "tweet.read tweet.write users.read offline.access"),
             ("response_type", "code"),
             ("state", "mystate"),
             ("code_challenge_method", "S256"),
             ("code_challenge", "chal")]
        ∧ "code_challenge"
          ∈ ([("client_id", "cid"),
              ("redirect_uri", "https://app.example/auth/callback"),
              ("scope", "tweet.read tweet.write users.read offline.access"),
              ("response_type", "code"),
              ("state", "mystate"),
              ("code_challenge_method", "S256"),
              ("code_challenge", "chal")].map Prod.fst))
    ∧ (Platform.TWITTER ≠ Platform.TWITTER →
        "code_challenge"
          ∉ ([("client_id", "cid"),
              ("redirect_uri", "https://app.example/auth/callback"),
              ("scope", "tweet.read tweet.write users.read offline.access"),
              ("response_type", "code"),
              ("state", "mystate"),
              ("code_challenge_method", "S256"),
              ("code_challenge", "chal")].map Prod.fst)
        ∧ "code_challenge_method"
          ∉ ([("client_id", "cid"),
              ("redirect_uri", "https://app.example/auth/callback"),
              ("scope", "tweet.read tweet.write users.read offline.access"),
              ("response_type", "code"),
              ("state", "mystate"),
              ("code_challenge_method", "S256"),
              ("code_challenge", "chal")].map Prod.fst)) :=
  buildAuthUrl_params Platform.TWITTER
    ⟨"https://twitter.com/i/oauth2/authorize",
     ["tweet.read", "tweet.write", "users.read", "offline.access"]⟩
    ⟨"cid", "https://app.example/auth/callback",
     ["tweet.read", "tweet.write", "users.read", "offline.access"],
     some "mystate"⟩
    "fresh" "chal"
    [("client_id", "cid"),
     ("redirect_uri", "https://app.example/auth/callback"),
     ("scope", "tweet.read tweet.write users.read offline.access"),
     ("response_type", "code"),
     ("state", "mystate"),
     ("code_challenge_method", "S256"),
     ("code_challenge", "chal")]
    (by decide) rfl rfl

/-- JavaScript `x || undefined` never yields a present-but-empty string,
so `parseError` never reports an empty description. -/
theorem orUndefined_ne_empty (x : Option String) : orUndefined x ≠ some "" := by
  cases x with
  | none => simp [orUndefined]
  | some s => by_cases h : s = "" <;> simp [orUndefined, h]

/-- C9: each of the seven enumerated provider error codes maps to its
fixed user-facing sentence (whatever description accompanies it); a code
outside the set yields the provider description when one is present
(present descriptions are non-empty — `parseError` never produces an
empty one, as the last conjunct shows) and the generic unknown-error
sentence otherwise; and parsing callback parameters that carry no
`error` parameter yields no error value. -/
theorem error_translator (code d : String) (desc uri st : Option String)
    (params params2 : List (String × String)) (e : OAuthError)
    (hcode : errorMessages code = none)
    (hd : d ≠ "")
    (hnoerr : searchParamsGet params "error" = none) :
    getErrorMessage ⟨"access_denied", desc, uri, st⟩
      = "You denied access to your account. Please try again if you want to connect this platform."
    ∧ getErrorMessage ⟨"invalid_request", desc, uri, st⟩
      = "There was an error with the authorization request. Please try again."
    ∧ getErrorMessage ⟨"unauthorized_client", desc, uri, st⟩
      = "The application is not authorized to request access tokens."
    ∧ getErrorMessage ⟨"unsupported_response_type", desc, uri, st⟩
      = "The authorization server does not support this response type."
    ∧ getErrorMessage ⟨"invalid_scope", desc, uri, st⟩
      = "The requested scope is invalid or unknown."
    ∧ getErrorMessage ⟨"server_error", desc, uri, st⟩
      = "The authorization server encountered an error. Please try again later."
    ∧ getErrorMessage ⟨"temporarily_unavailable", desc, uri, st⟩
      = "The authorization server is temporarily unavailable. Please try again later."
    ∧ getErrorMessage ⟨code, some d, uri, st⟩ = d
    ∧ getErrorMessage ⟨code, none, uri, st⟩
      = "An unknown error occurred during authorization."
    ∧ parseError params = none
    ∧ (parseError params2 = some e → e.error_description ≠ some "") := by
  refine ⟨rfl, rfl, rfl, rfl, rfl, rfl, rfl, ?_, ?_, ?_, ?_⟩
  · simp [getErrorMessage, hcode, hd]
  · simp [getErrorMessage, hcode]
  · simp [parseError, hnoerr]
  · intro hp
    simp only [parseError] at hp
    split at hp
    · exact absurd hp (by simp)
    · split at hp
      · exact absurd hp (by simp)
      · rw [Option.some.injEq] at hp
        subst hp
        exact orUndefined_ne_empty _

/-- Witness for `error_translator` at a concrete input. -/
theorem error_translator_witness :
    getErrorMessage ⟨"access_denied", none, none, none⟩
      = "You denied access to your account. Please try again if you want to connect this platform."
    ∧ getErrorMessage ⟨"invalid_request", none, none, none⟩
      = "There was an error with the authorization request. Please try again."
    ∧ getErrorMessage ⟨"unauthorized_client", none, none, none⟩
      = "The application is not authorized to request access tokens."
    ∧ getErrorMessage ⟨"unsupported_response_type", none, none, none⟩
      = "The authorization server does not support this response type."
    ∧ getErrorMessage ⟨"invalid_scope", none, none, none⟩
      = "The requested scope is invalid or unknown."
    ∧ getErrorMessage ⟨"server_error", none, none, none⟩
      = "The authorization server encountered an error. Please try again later."
    ∧ getErrorMessage ⟨"temporarily_unavailable", none, none, none⟩
      = "The authorization server is temporarily unavailable. Please try again later."
    ∧ getErrorMessage ⟨"weird_code", some "Provider said no.", none, none⟩
      = "Provider said no."
    ∧ getErrorMessage ⟨"weird_code", none, none, none⟩
      = "An unknown error occurred during authorization."
    ∧ parseError [("state", "x")] = none
    ∧ (parseError [("error", "access_denied")]
          = some ⟨"access_denied", none, none, none⟩ →
        OAuthError.error_description ⟨"access_denied", none, none, none⟩
          ≠ some "") :=
  error_translator "weird_code" "Provider said no." none none none
    [("state", "x")] [("error", "access_denied")]
    ⟨"access_denied", none, none, none⟩ rfl (by decide) rfl

end SocialSuit
